import Mathlib

/-
Shallow embedding of `backend/apps/chat/crisis_detection.py`.

Messages are modelled as lists of characters. Python substring containment
(`needle in haystack`), `str.lower` and `str.strip` are modelled
character-wise. The morphological analyzer (spaCy `en_core_web_sm`) is
external to the repository, so the functions that use it take the analyzer
as an explicit parameter: `none` models an analyzer failure (an exception
inside the `try` block of `lemmatize_text`), `some lemmas` models the
token-lemma list the analyzer produced.
-/

/-- The ASCII apostrophe character (some lexicon phrases and all canned
responses contain it). -/
def qc : Char := Char.ofNat 39

/-- One-character string holding the apostrophe. -/
def apos : String := String.singleton qc

/-- The characters of a string (a Python `str` is a sequence of characters). -/
def s2c (s : String) : List Char := s.data

/-- Whitespace stripped by Python `str.strip()` (ASCII space, tab, LF, CR,
vertical tab, form feed; the rarer Unicode space code points are immaterial
here since the whole lexicon is ASCII). -/
def pyWS (c : Char) : Bool :=
  decide (c.toNat = 32 ∨ c.toNat = 9 ∨ c.toNat = 10 ∨ c.toNat = 13 ∨
    c.toNat = 11 ∨ c.toNat = 12)

/-- Python `str.lower` on one character (ASCII case map; the lexicon is
ASCII). -/
def pyLowerChar (c : Char) : Char :=
  if 65 ≤ c.toNat ∧ c.toNat ≤ 90 then Char.ofNat (c.toNat + 32) else c

/-- Python `str.lower`. -/
def pyLower (s : List Char) : List Char := s.map pyLowerChar

/-- Python `str.strip()`: drop leading and trailing whitespace. -/
def pyStrip (s : List Char) : List Char :=
  ((s.dropWhile pyWS).reverse.dropWhile pyWS).reverse

/-- Test `matchAt needle hay`: holds when `needle` is a prefix of `hay`. -/
def matchAt : List Char → List Char → Bool
  | [], _ => true
  | _ :: _, [] => false
  | a :: an, b :: bn => a == b && matchAt an bn

/-- Python substring containment `needle in hay`. -/
def occursIn (needle : List Char) : List Char → Bool
  | [] => needle.isEmpty
  | c :: t => matchAt needle (c :: t) || occursIn needle t

/-- Whether a list of characters is empty or starts with whitespace. -/
def headWS : List Char → Bool
  | [] => true
  | c :: _ => pyWS c

/-- The four risk levels returned by the detector, ordered by severity
`SAFE < MEDIUM < HIGH < CRITICAL`. -/
inductive Tier
  | SAFE
  | MEDIUM
  | HIGH
  | CRITICAL
  deriving DecidableEq, Repr

/-- Position of a tier in the list `risk_levels` of `detect_crisis_enhanced`
(`risk_levels.index`). -/
def tierIdx : Tier → Nat
  | .SAFE => 0
  | .MEDIUM => 1
  | .HIGH => 2
  | .CRITICAL => 3

/-- Severity order on tiers. -/
def tierLe (a b : Tier) : Prop := tierIdx a ≤ tierIdx b

instance (a b : Tier) : Decidable (tierLe a b) :=
  inferInstanceAs (Decidable (tierIdx a ≤ tierIdx b))

/-- Lexicon `CRISIS_KEYWORDS` CRITICAL / english (source lines 22-34, including the
duplicate `no reason to live`). -/
def CRITICAL_english : List (List Char) :=
  [s2c "kill myself", s2c "commit suicide", s2c "end my life",
   s2c "take my life", s2c "suicide plan", s2c "how to die",
   s2c "way to die", s2c "end it all", s2c "be off dead",
   s2c "world without I", s2c "say goodbye", s2c "final goodbye",
   s2c "last message", s2c "no reason to live", s2c "want to die",
   s2c "go to die", s2c "plan to die", s2c "hang myself", s2c "overdose",
   s2c "jump off", s2c "no reason to live", s2c "buy pill",
   s2c "write note", s2c "final arrangement", s2c "feel unstable"]

/-- Lexicon `CRISIS_KEYWORDS` CRITICAL / pidgin (source lines 35-41). -/
def CRITICAL_pidgin : List (List Char) :=
  [s2c "i wan die", s2c "make i just die", s2c "i go kill myself",
   s2c "make i comot for this world", s2c "i don taya for life",
   s2c "nothing dey for me again", s2c "i fit just end am",
   s2c "make i just finish am", s2c "i go end myself", s2c "wan kpai",
   s2c "kpai myself"]

/-- Lexicon `CRISIS_KEYWORDS` HIGH / english (source lines 45-65, including the
duplicated phrases). -/
def HIGH_english : List (List Char) :=
  [s2c "hurt myself", s2c "cut myself", s2c "harm myself", s2c "self harm",
   s2c "burn myself", s2c "punish myself", s2c "hate myself",
   s2c "deserve pain", s2c "want to hurt", s2c "no point live",
   s2c "life be meaningless", s2c "can not go on", s2c "give up everything",
   s2c "nothing matter", s2c "no hope leave", s2c "everyone hate I",
   s2c "burden to everyone", s2c "world hate I", s2c "disappear forever",
   s2c "run away forever", s2c "leave forever",
   s2c "can not do this anymore", s2c "can not take it anymore",
   s2c "everybody good without I", s2c "waste of space",
   s2c ("can" ++ apos ++ "t go on"), s2c "no hope", s2c "give up everything",
   s2c "everyone hates me", s2c "worthless", s2c "hurt myself",
   s2c "self harm", s2c "cut myself", s2c "this country don finish me",
   s2c "nobody go miss me"]

/-- Lexicon `CRISIS_KEYWORDS` HIGH / pidgin (source lines 66-71). -/
def HIGH_pidgin : List (List Char) :=
  [s2c "nobody go miss me", s2c "this country don finish me",
   s2c "i no fit continue", s2c "wahala too much abeg",
   s2c "make i just disappear", s2c "person wey born me no happy"]

/-- Lexicon `CRISIS_KEYWORDS` MEDIUM / english (source lines 74-89). The literal
`too much to handle` on line 83 has no trailing comma, so Python
concatenates it with the adjacent literal `nobody care` on line 86 into the
single phrase `too much to handlenobody care`. -/
def MEDIUM_english : List (List Char) :=
  [s2c "feel hopeless", s2c "very depressed", s2c "extremely anxious",
   s2c "panic attack", s2c "can not cope", s2c "overwhelm completely",
   s2c "tired of try", s2c "nothing work", s2c "give up",
   s2c "do not want to wake up", s2c "wish i be not here",
   s2c "wish i could sleep forever", s2c "tired of life",
   s2c "feel hopeless", s2c "very depressed", s2c "extremely anxious",
   s2c "panic attack", s2c ("can" ++ apos ++ "t cope"), s2c "overwhelmed",
   s2c "nothing matters", s2c "tired of trying",
   s2c "too much to handlenobody care", s2c "all alone",
   s2c "no one understand", s2c "push everyone away", s2c "isolate myself",
   s2c "nobody listen", s2c "invisible to everyone"]

/-- Lexicon `CRISIS_KEYWORDS` MEDIUM / pidgin (source lines 90-93). -/
def MEDIUM_pidgin : List (List Char) :=
  [s2c "this life no balance", s2c "e don do for me",
   s2c "wetin i dey do for this world", s2c "i don tire"]

/-- The `CRISIS_KEYWORDS` dictionary: insertion order CRITICAL, HIGH,
MEDIUM, each with dialects in insertion order english, pidgin. -/
def CRISIS_KEYWORDS : List (String × List (String × List (List Char))) :=
  [("CRITICAL", [("english", CRITICAL_english), ("pidgin", CRITICAL_pidgin)]),
   ("HIGH", [("english", HIGH_english), ("pidgin", HIGH_pidgin)]),
   ("MEDIUM", [("english", MEDIUM_english), ("pidgin", MEDIUM_pidgin)])]

/-- The `METAPHORICAL_CONTEXTS` dictionary (source lines 100-120). -/
def METAPHORICAL_CONTEXTS : List (String × List (List Char)) :=
  [("academic",
    [s2c "exam", s2c "test", s2c "assignment", s2c "deadline",
     s2c "interview", s2c "presentation", s2c "project", s2c "quiz",
     s2c "homework", s2c "study"]),
   ("entertainment",
    [s2c "movie", s2c "film", s2c "show", s2c "game", s2c "video",
     s2c "song", s2c "book", s2c "story", s2c "comedy", s2c "funny",
     s2c "laugh"]),
   ("positive",
    [s2c "excited", s2c "can not wait", s2c "look forward", s2c "eager",
     s2c "thrilled", s2c "amazing", s2c "wonderful", s2c "great"]),
   ("figurative",
    [s2c "die to see", s2c "kill I", s2c "to die for", s2c "dead tired",
     s2c "kill it", s2c "slay", s2c "murder", s2c "destroy"])]

/-- Source `check_metaphorical_context(message)`: true iff any indicator substring
of any context category occurs in `message` (the caller passes the
lower-cased message). -/
def check_metaphorical_context (message : List Char) : Bool :=
  METAPHORICAL_CONTEXTS.any fun kv => kv.2.any fun keyword => occursIn keyword message

/-- Source `detect_crisis_level(message)`: single-pass keyword scorer. Guard: empty
message or at most 3 stripped characters returns SAFE. Then the tiers are
scanned in order CRITICAL, HIGH, MEDIUM over the lower-cased message
(english list then pidgin list), with the metaphorical-context downgrade
applied per tier. -/
def detect_crisis_level (message : List Char) : Tier :=
  if message.isEmpty ∨ (pyStrip message).length ≤ 3 then .SAFE
  else
    let message_lower := pyLower message
    let is_metaphorical := check_metaphorical_context message_lower
    if (CRITICAL_english ++ CRITICAL_pidgin).any (fun keyword => occursIn keyword message_lower) then
      if is_metaphorical then .HIGH else .CRITICAL
    else if (HIGH_english ++ HIGH_pidgin).any (fun keyword => occursIn keyword message_lower) then
      if is_metaphorical then .MEDIUM else .HIGH
    else if (MEDIUM_english ++ MEDIUM_pidgin).any (fun keyword => occursIn keyword message_lower) then
      if is_metaphorical then .SAFE else .MEDIUM
    else .SAFE

/-- Source `lemmatize_text(text)`: runs the analyzer on the lower-cased text and
joins the lemmas with single spaces; if the analyzer fails (the `except`
branch), the original text is returned unchanged. -/
def lemmatize_text (analyzer : List Char → Option (List (List Char)))
    (text : List Char) : List Char :=
  match analyzer (pyLower text) with
  | some lemmas => List.intercalate (s2c " ") lemmas
  | none => text

/-- Source `detect_crisis_enhanced(message)`: dual-pass reconciler. Pass 1 scores
the raw message and returns immediately on CRITICAL or HIGH; otherwise the
lemmatized message is scored as well (only when it differs from the
lower-cased original) and the more severe tier wins. -/
def detect_crisis_enhanced (analyzer : List Char → Option (List (List Char)))
    (message : List Char) : Tier :=
  if message.isEmpty ∨ (pyStrip message).length < 3 then .SAFE
  else
    let risk_original := detect_crisis_level message
    if risk_original = .CRITICAL ∨ risk_original = .HIGH then risk_original
    else
      let lemmatized_message := lemmatize_text analyzer message
      if lemmatized_message ≠ pyLower message then
        let risk_lemmatized := detect_crisis_level lemmatized_message
        if tierIdx risk_original < tierIdx risk_lemmatized then risk_lemmatized
        else risk_original
      else risk_original

/-- The emotion signal dictionary produced upstream; `detect_crisis_with_emotion`
reads the three fields with `dict.get` defaults (`neutral` / `0` / `low`), so
each field is optional here. Confidence is modelled as an exact rational. -/
structure EmotionData where
  primary_emotion : Option String
  confidence : Option ℚ
  urgency : Option String

/-- Python `round(x, 2)` on the fixed fusion confidences (all of which have
at most two decimal places, so no rounding tie can occur). -/
def round2 (q : ℚ) : ℚ := (round (q * 100) : ℚ) / 100

/-- The risk-adjustment block of `detect_crisis_with_emotion` (source lines
301-325): combines the keyword tier with the defaulted emotion fields and
produces the final tier and the un-rounded confidence. -/
def fuseRisk (keyword_risk : Tier) (primary_emotion : String)
    (emotion_confidence : ℚ) (urgency : String) : Tier × ℚ :=
  if keyword_risk = .HIGH ∨ keyword_risk = .CRITICAL then
    if (primary_emotion = "fear" ∨ primary_emotion = "sadness") ∧
        emotion_confidence > 0.6 then
      (keyword_risk, 0.9)
    else if primary_emotion = "anger" ∧ emotion_confidence > 0.7 then
      (keyword_risk, 0.75)
    else
      (keyword_risk, 0.6)
  else if keyword_risk = .MEDIUM then
    if urgency = "high" ∧ (primary_emotion = "fear" ∨ primary_emotion = "sadness") then
      (.HIGH, 0.7)
    else
      (keyword_risk, 0.5)
  else
    if urgency = "high" ∧ (primary_emotion = "fear" ∨ primary_emotion = "sadness") then
      (.MEDIUM, 0.4)
    else
      (keyword_risk, 0.95)

/-- Source `get_risk_recommendation(risk_level, emotion_data)`. -/
def get_risk_recommendation (risk_level : Tier) (_emotion_data : EmotionData) : String :=
  match risk_level with
  | .CRITICAL => "IMMEDIATE_CRISIS_RESPONSE"
  | .HIGH => "URGENT_SUPPORT_NEEDED"
  | .MEDIUM => "ELEVATED_CONCERN"
  | .SAFE => "STANDARD_THERAPEUTIC_RESPONSE"

/-- The f-string format of one trigger entry in `identify_triggers`. -/
def fmtTrigger (risk_level : String) (keyword : List Char) : List Char :=
  s2c risk_level ++ s2c ": " ++ [qc] ++ keyword ++ [qc]

/-- Source `identify_triggers(message)`: scans every tier and dialect of
`CRISIS_KEYWORDS` in insertion order over the lower-cased message, collects
a formatted entry for each matching phrase, and keeps the first 5. -/
def identify_triggers (message : List Char) : List (List Char) :=
  let message_lower := pyLower message
  let triggers := CRISIS_KEYWORDS.foldl
    (fun acc tierEntry => tierEntry.2.foldl
      (fun acc2 dialectEntry => dialectEntry.2.foldl
        (fun acc3 keyword =>
          if occursIn keyword message_lower then
            acc3 ++ [fmtTrigger tierEntry.1 keyword]
          else acc3)
        acc2)
      acc)
    []
  triggers.take 5

/-- The `emotion_context` sub-dictionary of the result of
`detect_crisis_with_emotion`. -/
structure EmotionContext where
  primary_emotion : String
  emotion_confidence : ℚ
  urgency : String
  deriving DecidableEq, Repr

/-- The result dictionary of `detect_crisis_with_emotion`. -/
structure CrisisResult where
  risk_level : Tier
  confidence : ℚ
  triggers : List (List Char)
  recommendation : String
  emotion_context : EmotionContext

/-- Source `detect_crisis_with_emotion(message, emotion_data)`: keyword detection
via `detect_crisis_enhanced`, trigger extraction on the raw message, and the
fixed fusion decision table. -/
def detect_crisis_with_emotion (analyzer : List Char → Option (List (List Char)))
    (message : List Char) (emotion_data : EmotionData) : CrisisResult :=
  let keyword_risk := detect_crisis_enhanced analyzer message
  let primary_emotion := emotion_data.primary_emotion.getD "neutral"
  let emotion_confidence := emotion_data.confidence.getD 0
  let urgency := emotion_data.urgency.getD "low"
  let triggers := identify_triggers message
  let fused := fuseRisk keyword_risk primary_emotion emotion_confidence urgency
  let recommendation := get_risk_recommendation fused.1 emotion_data
  { risk_level := fused.1
    confidence := round2 fused.2
    triggers := triggers
    recommendation := recommendation
    emotion_context :=
      { primary_emotion := primary_emotion
        emotion_confidence := emotion_confidence
        urgency := urgency } }

/-- One support resource of a crisis response bundle. -/
structure Resource where
  name : String
  contact : String
  available : String
  type : String
  deriving DecidableEq, Repr

/-- The response bundle returned by `get_crisis_response` for a non-SAFE
tier. -/
structure ResponseBundle where
  response : String
  resources : List Resource
  escalate : Bool
  immediate_action_required : Bool

/-- The canned CRITICAL response text (source lines 385-391). -/
def critical_response_text : String :=
  "I" ++ apos ++ "m truly concerned about what you" ++ apos ++
  "re sharing with me. Your safety and wellbeing are what matters most right now.\n\nYou don" ++
  apos ++
  "t have to face this moment alone. Help is available, and people who care want to support you. Please reach out to one of the emergency services below—they" ++
  apos ++ "re trained to help and are available right now.\n\nIf you" ++ apos ++
  "re in immediate danger, please call emergency services (112 or 767) right away. \n\nWe" ++
  apos ++
  "re also notifying our support team, and someone from our team may reach out to you to check in. You" ++
  apos ++ "re valued, and we" ++ apos ++ "re here for you. 💙"

/-- The canned HIGH response text (source lines 425-431). -/
def high_response_text : String :=
  "I hear you, and I can sense that you" ++ apos ++
  "re going through something really difficult right now. What you" ++ apos ++
  "re feeling is valid and important.\n\nThe fact that you" ++ apos ++
  "re reaching out shows strength. You don" ++ apos ++
  "t have to handle this alone—support is available, and it" ++ apos ++
  "s okay to ask for help.\n\nIf you" ++ apos ++
  "re feeling overwhelmed, please consider connecting with one of the resources below. They" ++
  apos ++ "re trained professionals who understand what you" ++ apos ++
  "re going through and are ready to listen and support you.\n\nOur team may also reach out to check in on you. You matter. 💙"

/-- The canned MEDIUM response text (source lines 460-464). -/
def medium_response_text : String :=
  "It sounds like you" ++ apos ++
  "re dealing with some challenging feelings right now, and I appreciate you sharing that with me. That takes courage.\n\nLet" ++
  apos ++ "s work through this together. I" ++ apos ++
  "m here to listen and support you. Sometimes talking through what" ++ apos ++
  "s happening can help clarify things and make them feel more manageable.\n\nIf you" ++
  apos ++
  "d like additional support, there are resources available to help. Remember, seeking help is a sign of strength, not weakness. 💙"

/-- Source `get_crisis_response(risk_level)`: fixed bundle per non-SAFE tier,
`none` for SAFE. -/
def get_crisis_response (risk_level : Tier) : Option ResponseBundle :=
  if risk_level = .CRITICAL then
    some
      { response := critical_response_text
        resources :=
          [{ name := "National Emergency", contact := "112 or 767",
             available := "24/7", type := "emergency" },
           { name := "Mentally Aware Nigeria (MANI)", contact := "+2348091116264",
             available := "24/7", type := "crisis_line" },
           { name := "LUTH Psychiatry Emergency", contact := "+234 1 593 6394",
             available := "24/7", type := "hospital" },
           { name := "She Writes Woman Crisis Line", contact := "+234 813 951 3888",
             available := "Mon-Fri 10am-6pm", type := "crisis_line" }]
        escalate := true
        immediate_action_required := true }
  else if risk_level = .HIGH then
    some
      { response := high_response_text
        resources :=
          [{ name := "Mentally Aware Nigeria (MANI)", contact := "+234 809 210 6493",
             available := "24/7", type := "crisis_line" },
           { name := "She Writes Woman", contact := "+234 813 951 3888",
             available := "Mon-Fri 10am-6pm", type := "support_line" },
           { name := "The Agbeyega Care Centre", contact := "+234 803 333 7574",
             available := "By appointment", type := "therapy_center" }]
        escalate := true
        immediate_action_required := false }
  else if risk_level = .MEDIUM then
    some
      { response := medium_response_text
        resources :=
          [{ name := "Mental Health Foundation Nigeria", contact := "+234 814 652 3537",
             available := "Mon-Fri 9am-5pm", type := "information" }]
        escalate := false
        immediate_action_required := false }
  else
    none

/-- All trigger phrases in lexicon order (tiers CRITICAL, HIGH, MEDIUM, each
english before pidgin). -/
def ALL_TRIGGER_PHRASES : List (List Char) :=
  CRITICAL_english ++ CRITICAL_pidgin ++ HIGH_english ++ HIGH_pidgin ++
    MEDIUM_english ++ MEDIUM_pidgin

/-- Shape check for a trigger phrase: more than 3 characters and no leading
or trailing whitespace. These facts bound the stripped length of any message
containing the phrase. -/
def phraseOk (p : List Char) : Bool :=
  decide (3 < p.length) && !headWS p && !headWS p.reverse

/-- Claim C1 spec-side scorer, written from the words of the claim: scan the
tiers in the fixed order CRITICAL, HIGH, MEDIUM over the lower-cased message
with first-substring-match-wins and the per-tier metaphor downgrade
(CRITICAL match: HIGH if metaphorical else CRITICAL; HIGH match: MEDIUM if
metaphorical else HIGH; MEDIUM match: SAFE if metaphorical else MEDIUM), and
SAFE when no phrase of any tier occurs. To be compared with
`detect_crisis_level`. -/
def scorerSpec (message : List Char) : Tier :=
  let message_lower := pyLower message
  let is_metaphorical := check_metaphorical_context message_lower
  if (CRITICAL_english ++ CRITICAL_pidgin).any (fun keyword => occursIn keyword message_lower) then
    if is_metaphorical then .HIGH else .CRITICAL
  else if (HIGH_english ++ HIGH_pidgin).any (fun keyword => occursIn keyword message_lower) then
    if is_metaphorical then .MEDIUM else .HIGH
  else if (MEDIUM_english ++ MEDIUM_pidgin).any (fun keyword => occursIn keyword message_lower) then
    if is_metaphorical then .SAFE else .MEDIUM
  else .SAFE

/-- Claim C2 spec-side decision table, written from the words of the claim:
tier HIGH or CRITICAL stays unchanged with confidence 0.90 when the primary
emotion is fear or sadness with confidence above 0.6, 0.75 when the primary
emotion is anger with confidence above 0.7, and 0.60 otherwise; MEDIUM is
upgraded to HIGH with 0.70 exactly when urgency is high and the primary
emotion is fear or sadness, else stays MEDIUM with 0.50; SAFE is upgraded to
MEDIUM with 0.40 exactly when urgency is high and the primary emotion is
fear or sadness, else stays SAFE with 0.95. -/
def fusionSpec (keywordTier : Tier) (primary : String) (econf : ℚ)
    (urg : String) : Tier × ℚ :=
  match keywordTier with
  | .HIGH | .CRITICAL =>
    if (primary = "fear" ∨ primary = "sadness") ∧ econf > 0.6 then (keywordTier, 0.9)
    else if primary = "anger" ∧ econf > 0.7 then (keywordTier, 0.75)
    else (keywordTier, 0.6)
  | .MEDIUM =>
    if urg = "high" ∧ (primary = "fear" ∨ primary = "sadness") then (.HIGH, 0.7)
    else (.MEDIUM, 0.5)
  | .SAFE =>
    if urg = "high" ∧ (primary = "fear" ∨ primary = "sadness") then (.MEDIUM, 0.4)
    else (.SAFE, 0.95)

/-- The lexicon flattened to (tier name, phrase) pairs in lexicon order. -/
def allLexicon : List (String × List Char) :=
  CRITICAL_english.map (fun p => ("CRITICAL", p)) ++
  CRITICAL_pidgin.map (fun p => ("CRITICAL", p)) ++
  HIGH_english.map (fun p => ("HIGH", p)) ++
  HIGH_pidgin.map (fun p => ("HIGH", p)) ++
  MEDIUM_english.map (fun p => ("MEDIUM", p)) ++
  MEDIUM_pidgin.map (fun p => ("MEDIUM", p))

/-- Claim C6 spec-side trigger extractor, written from the words of the
claim: the first (at most) 5 matches encountered scanning every tier and
dialect in lexicon order without short-circuiting, each formatted by
`fmtTrigger`. -/
def triggersSpec (message : List Char) : List (List Char) :=
  ((allLexicon.filter fun tp => occursIn tp.2 (pyLower message)).map
    fun tp => fmtTrigger tp.1 tp.2).take 5

/-- Split a character list at single spaces (helper for the demo
analyzer). -/
def tokenizeAux : List Char → List Char → List (List Char)
  | [], cur => [cur.reverse]
  | c :: t, cur =>
    if c = ' ' then cur.reverse :: tokenizeAux t []
    else tokenizeAux t (c :: cur)

/-- Space-tokenization for the demo analyzer. -/
def tokenize (t : List Char) : List (List Char) := tokenizeAux t []

/-- Modelled from the spec: a tiny lemma table following the lemmatization
examples of the spec and of the lexicon comments ("killing" to "kill",
"wanted" to "want", "am"/"is" to "be"; base forms pass through unchanged).
The real morphological analyzer (spaCy `en_core_web_sm`) is external to the
repository. -/
def demoLemmaTable (w : List Char) : List Char :=
  if w = s2c "killing" then s2c "kill"
  else if w = s2c "am" then s2c "be"
  else if w = s2c "is" then s2c "be"
  else if w = s2c "wanted" then s2c "want"
  else w

/-- Modelled from the spec: a concrete analyzer instance used to exercise
the analyzer-parametric theorems on closed inputs. It tokenizes at spaces
and applies `demoLemmaTable` to every token. -/
def demoAnalyzer (t : List Char) : Option (List (List Char)) :=
  some ((tokenize t).map demoLemmaTable)

/-- An analyzer that always fails, modelling a spaCy exception. -/
def failAnalyzer : List Char → Option (List (List Char)) := fun _ => none

theorem matchAt_iff {n h : List Char} : matchAt n h = true ↔ ∃ r, h = n ++ r := by
  induction n generalizing h with
  | nil =>
    simp only [matchAt, List.nil_append, true_iff]
    exact ⟨h, rfl⟩
  | cons a an ih =>
    cases h with
    | nil =>
      simp [matchAt]
    | cons b bn =>
      simp only [matchAt, Bool.and_eq_true, beq_iff_eq, ih, List.cons_append,
        List.cons.injEq]
      constructor
      · rintro ⟨rfl, r, rfl⟩
        exact ⟨r, rfl, rfl⟩
      · rintro ⟨r, rfl, rfl⟩
        exact ⟨rfl, r, rfl⟩

theorem occursIn_iff {n h : List Char} :
    occursIn n h = true ↔ ∃ l r, h = l ++ (n ++ r) := by
  induction h with
  | nil =>
    simp only [occursIn, List.isEmpty_iff]
    constructor
    · rintro rfl
      exact ⟨[], [], rfl⟩
    · rintro ⟨l, r, he⟩
      rcases List.append_eq_nil.mp he.symm with ⟨-, h2⟩
      rcases List.append_eq_nil.mp h2 with ⟨h3, -⟩
      exact h3
  | cons c t ih =>
    simp only [occursIn, Bool.or_eq_true, matchAt_iff, ih]
    constructor
    · rintro (⟨r, hr⟩ | ⟨l, r, hr⟩)
      · exact ⟨[], r, by simpa using hr⟩
      · exact ⟨c :: l, r, by simp [hr]⟩
    · rintro ⟨l, r, hr⟩
      cases l with
      | nil => exact Or.inl ⟨r, by simpa using hr⟩
      | cons a l2 =>
        simp only [List.cons_append, List.cons.injEq] at hr
        exact Or.inr ⟨l2, r, hr.2⟩

theorem occurs_length_le {n h : List Char} (ho : occursIn n h = true) :
    n.length ≤ h.length := by
  rcases occursIn_iff.mp ho with ⟨l, r, rfl⟩
  simp only [List.length_append]
  omega

theorem occursIn_dropWhile {n s : List Char} (ho : occursIn n s = true)
    (hh : headWS n = false) : occursIn n (s.dropWhile pyWS) = true := by
  rcases occursIn_iff.mp ho with ⟨l, r, rfl⟩
  clear ho
  induction l with
  | nil =>
    cases n with
    | nil => simp [headWS] at hh
    | cons a an =>
      have hpa : pyWS a = false := by simpa [headWS] using hh
      simp only [List.nil_append, List.cons_append, List.dropWhile_cons, hpa,
        Bool.false_eq_true, if_false]
      exact occursIn_iff.mpr ⟨[], r, by simp⟩
  | cons b l2 ih =>
    simp only [List.cons_append, List.dropWhile_cons]
    by_cases hb : pyWS b = true
    · simpa [hb] using ih
    · rw [Bool.not_eq_true] at hb
      simp only [hb, Bool.false_eq_true, if_false]
      exact occursIn_iff.mpr ⟨b :: l2, r, by simp⟩

theorem occursIn_reverse {n s : List Char} (ho : occursIn n s = true) :
    occursIn n.reverse s.reverse = true := by
  rcases occursIn_iff.mp ho with ⟨l, r, rfl⟩
  refine occursIn_iff.mpr ⟨r.reverse, l.reverse, ?_⟩
  simp [List.reverse_append, List.append_assoc]

theorem occurs_pyStrip_length {n s : List Char} (ho : occursIn n s = true)
    (h1 : headWS n = false) (h2 : headWS n.reverse = false) :
    n.length ≤ (pyStrip s).length := by
  have s3 := occursIn_dropWhile (occursIn_reverse (occursIn_dropWhile ho h1)) h2
  have s4 := occurs_length_le s3
  simpa [pyStrip, List.length_reverse] using s4

theorem char_toNat_ofNat {m : Nat} (hm : m < 55296) : (Char.ofNat m).toNat = m := by
  rw [Char.ofNat, dif_pos (Or.inl hm)]
  rfl

theorem pyWS_pyLowerChar (c : Char) : pyWS (pyLowerChar c) = pyWS c := by
  unfold pyLowerChar
  by_cases hc : 65 ≤ c.toNat ∧ c.toNat ≤ 90
  · rw [if_pos hc]
    have ht : (Char.ofNat (c.toNat + 32)).toNat = c.toNat + 32 :=
      char_toNat_ofNat (by omega)
    unfold pyWS
    rw [ht, decide_eq_decide]
    constructor
    · intro h
      omega
    · intro h
      omega
  · rw [if_neg hc]

theorem pyLowerChar_idem (c : Char) :
    pyLowerChar (pyLowerChar c) = pyLowerChar c := by
  by_cases hc : 65 ≤ c.toNat ∧ c.toNat ≤ 90
  · have h1 : pyLowerChar c = Char.ofNat (c.toNat + 32) := by
      unfold pyLowerChar
      rw [if_pos hc]
    have ht : (Char.ofNat (c.toNat + 32)).toNat = c.toNat + 32 :=
      char_toNat_ofNat (by omega)
    rw [h1]
    unfold pyLowerChar
    rw [if_neg (by rw [ht]; omega)]
  · have h1 : pyLowerChar c = c := by
      unfold pyLowerChar
      rw [if_neg hc]
    rw [h1, h1]

theorem pyLower_length (s : List Char) : (pyLower s).length = s.length :=
  List.length_map s pyLowerChar

theorem pyLower_isEmpty (s : List Char) : (pyLower s).isEmpty = s.isEmpty := by
  cases s <;> rfl

theorem pyLower_idem (s : List Char) : pyLower (pyLower s) = pyLower s := by
  unfold pyLower
  rw [List.map_map]
  congr 1
  funext c
  exact pyLowerChar_idem c

theorem pyLower_reverse (l : List Char) :
    (pyLower l).reverse = pyLower l.reverse :=
  (List.map_reverse pyLowerChar l).symm

theorem dropWhile_pyWS_pyLower (s : List Char) :
    (pyLower s).dropWhile pyWS = pyLower (s.dropWhile pyWS) := by
  unfold pyLower
  rw [List.dropWhile_map]
  have hco : pyWS ∘ pyLowerChar = pyWS := by
    funext c
    exact pyWS_pyLowerChar c
  rw [hco]

theorem pyStrip_pyLower (s : List Char) :
    pyStrip (pyLower s) = pyLower (pyStrip s) := by
  unfold pyStrip
  rw [dropWhile_pyWS_pyLower, pyLower_reverse, dropWhile_pyWS_pyLower,
    pyLower_reverse]

theorem pyStrip_pyLower_length (s : List Char) :
    (pyStrip (pyLower s)).length = (pyStrip s).length := by
  rw [pyStrip_pyLower]
  exact pyLower_length _

theorem all_phrases_ok : ALL_TRIGGER_PHRASES.all phraseOk = true := by decide

theorem no_trigger_match_of_short {msg : List Char}
    (h : (pyStrip msg).length ≤ 3) :
    ∀ p ∈ ALL_TRIGGER_PHRASES, occursIn p (pyLower msg) = false := by
  intro p hp
  by_contra hocc
  rw [Bool.not_eq_false] at hocc
  have hok : phraseOk p = true := List.all_eq_true.mp all_phrases_ok p hp
  simp only [phraseOk, Bool.and_eq_true, Bool.not_eq_true',
    decide_eq_true_eq] at hok
  obtain ⟨⟨hlen, hh1⟩, hh2⟩ := hok
  have hb := occurs_pyStrip_length hocc hh1 hh2
  rw [pyStrip_pyLower_length] at hb
  omega

theorem detect_level_safe_of_short {msg : List Char}
    (h : msg.isEmpty ∨ (pyStrip msg).length ≤ 3) :
    detect_crisis_level msg = .SAFE := by
  unfold detect_crisis_level
  rw [if_pos h]

theorem any_trigger_false {msg : List Char} {l : List (List Char)}
    (hsub : ∀ p ∈ l, p ∈ ALL_TRIGGER_PHRASES)
    (h : (pyStrip msg).length ≤ 3) :
    l.any (fun keyword => occursIn keyword (pyLower msg)) = false := by
  rw [List.any_eq_false]
  intro p hp
  simp [no_trigger_match_of_short h p (hsub p hp)]

theorem scorerSpec_safe_of_short {msg : List Char}
    (h : (pyStrip msg).length ≤ 3) : scorerSpec msg = .SAFE := by
  have hc : ∀ p ∈ CRITICAL_english ++ CRITICAL_pidgin, p ∈ ALL_TRIGGER_PHRASES := by
    intro p hp
    unfold ALL_TRIGGER_PHRASES
    simp only [List.mem_append] at hp ⊢
    tauto
  have hh : ∀ p ∈ HIGH_english ++ HIGH_pidgin, p ∈ ALL_TRIGGER_PHRASES := by
    intro p hp
    unfold ALL_TRIGGER_PHRASES
    simp only [List.mem_append] at hp ⊢
    tauto
  have hm : ∀ p ∈ MEDIUM_english ++ MEDIUM_pidgin, p ∈ ALL_TRIGGER_PHRASES := by
    intro p hp
    unfold ALL_TRIGGER_PHRASES
    simp only [List.mem_append] at hp ⊢
    tauto
  simp only [scorerSpec]
  rw [any_trigger_false hc h, any_trigger_false hh h, any_trigger_false hm h]
  simp

/-- Claim C1: for every message of at least 3 stripped characters,
`detect_crisis_level` returns exactly the tier given by the claimed scan
(fixed tier order CRITICAL, HIGH, MEDIUM, first substring match wins,
per-tier metaphor downgrade, SAFE when no phrase occurs in the lower-cased
message). At exactly 3 stripped characters the guard of the source fires,
but no lexicon phrase (all longer than 3 characters with no outer
whitespace) can occur in such a message, so the scan also yields SAFE. -/
theorem C1_keyword_scorer_matches_spec (msg : List Char)
    (h : 3 ≤ (pyStrip msg).length) :
    detect_crisis_level msg = scorerSpec msg := by
  rcases Nat.lt_or_ge 3 (pyStrip msg).length with h4 | h3
  · have hg : ¬(msg.isEmpty ∨ (pyStrip msg).length ≤ 3) := by
      rintro (he | hl)
      · cases msg with
        | nil => exact absurd h4 (by decide)
        | cons a t => simp at he
      · omega
    unfold detect_crisis_level scorerSpec
    rw [if_neg hg]
  · have h3' : (pyStrip msg).length ≤ 3 := h3
    rw [detect_level_safe_of_short (Or.inr h3'), scorerSpec_safe_of_short h3']

theorem C1_keyword_scorer_matches_spec_witness :
    3 ≤ (pyStrip (s2c "I want to kill myself")).length ∧
    detect_crisis_level (s2c "I want to kill myself") =
      scorerSpec (s2c "I want to kill myself") :=
  ⟨by decide, C1_keyword_scorer_matches_spec _ (by decide)⟩

theorem foldl_append_filter (f : List Char → List Char)
    (p : List Char → Bool) :
    ∀ (l : List (List Char)) (acc : List (List Char)),
      l.foldl (fun a k => if p k then a ++ [f k] else a) acc =
        acc ++ (l.filter p).map f := by
  intro l
  induction l with
  | nil =>
    intro acc
    simp
  | cons x t ih =>
    intro acc
    rw [List.foldl_cons, ih, List.filter_cons]
    by_cases hx : p x = true <;> simp [hx, List.append_assoc]

theorem identify_triggers_eq (message : List Char) :
    identify_triggers message = triggersSpec message := by
  simp only [identify_triggers, triggersSpec, CRISIS_KEYWORDS, allLexicon,
    List.foldl_cons, List.foldl_nil]
  rw [foldl_append_filter, foldl_append_filter, foldl_append_filter,
    foldl_append_filter, foldl_append_filter, foldl_append_filter]
  simp only [List.filter_append, List.map_append, List.filter_map,
    List.map_map, List.nil_append, List.append_assoc]
  rfl

theorem allLexicon_snd_mem {tp : String × List Char} (h : tp ∈ allLexicon) :
    tp.2 ∈ ALL_TRIGGER_PHRASES := by
  have hmap : allLexicon.map Prod.snd = ALL_TRIGGER_PHRASES := by decide
  rw [← hmap]
  exact List.mem_map_of_mem Prod.snd h

/-- Claim C5: a message with fewer than 3 stripped characters (the empty
message included) is assessed SAFE by `detect_crisis_enhanced` (the guard
short-circuits before any lexicon phrase is consulted), and
`identify_triggers` produces the empty list for it, whatever the analyzer
does. -/
theorem C5_short_message_safe
    (analyzer : List Char → Option (List (List Char))) (msg : List Char)
    (h : (pyStrip msg).length < 3) :
    detect_crisis_enhanced analyzer msg = .SAFE ∧
      identify_triggers msg = [] := by
  constructor
  · unfold detect_crisis_enhanced
    rw [if_pos (Or.inr h)]
  · rw [identify_triggers_eq]
    unfold triggersSpec
    have hfil : allLexicon.filter (fun tp => occursIn tp.2 (pyLower msg)) = [] := by
      rw [List.filter_eq_nil_iff]
      intro tp hmem
      simp [@no_trigger_match_of_short msg (by omega) tp.2 (allLexicon_snd_mem hmem)]
    rw [hfil]
    rfl

theorem C5_short_message_safe_witness :
    (pyStrip (s2c "hi")).length < 3 ∧
    (detect_crisis_enhanced demoAnalyzer (s2c "hi") = .SAFE ∧
      identify_triggers (s2c "hi") = []) :=
  ⟨by decide, C5_short_message_safe demoAnalyzer _ (by decide)⟩

/-- Claim C6: the trigger list has length at most 5, equals the spec-side
exhaustive lexicon-order scan `triggersSpec`, and every element is the
format of a matching (tier, phrase) pair of the lexicon. -/
theorem C6_triggers_spec (msg : List Char) :
    (identify_triggers msg).length ≤ 5 ∧
    identify_triggers msg = triggersSpec msg ∧
    ∀ t ∈ identify_triggers msg, ∃ tp ∈ allLexicon,
      occursIn tp.2 (pyLower msg) = true ∧ t = fmtTrigger tp.1 tp.2 := by
  refine ⟨?_, identify_triggers_eq msg, ?_⟩
  · rw [identify_triggers_eq]
    unfold triggersSpec
    exact List.length_take_le _ _
  · intro t ht
    rw [identify_triggers_eq] at ht
    unfold triggersSpec at ht
    have ht2 := List.mem_of_mem_take ht
    rcases List.mem_map.mp ht2 with ⟨tp, htp, rfl⟩
    rcases List.mem_filter.mp htp with ⟨hmem, hp⟩
    exact ⟨tp, hmem, hp, rfl⟩

theorem C6_triggers_spec_witness :
    (identify_triggers (s2c "I feel hopeless and worthless")).length ≤ 5 ∧
    identify_triggers (s2c "I feel hopeless and worthless") =
      triggersSpec (s2c "I feel hopeless and worthless") :=
  ⟨(C6_triggers_spec _).1, (C6_triggers_spec _).2.1⟩

theorem round2_06 : round2 0.6 = 0.6 := by norm_num [round2, round_eq]

theorem round2_075 : round2 0.75 = 0.75 := by norm_num [round2, round_eq]

theorem round2_09 : round2 0.9 = 0.9 := by norm_num [round2, round_eq]

theorem round2_07 : round2 0.7 = 0.7 := by norm_num [round2, round_eq]

theorem round2_05 : round2 0.5 = 0.5 := by norm_num [round2, round_eq]

theorem round2_04 : round2 0.4 = 0.4 := by norm_num [round2, round_eq]

theorem round2_095 : round2 0.95 = 0.95 := by norm_num [round2, round_eq]

theorem fuseRisk_fusionSpec (kw : Tier) (p : String) (c : ℚ) (u : String) :
    ((fuseRisk kw p c u).1, round2 (fuseRisk kw p c u).2) =
      fusionSpec kw p c u := by
  cases kw <;>
    simp only [fuseRisk, fusionSpec, reduceCtorEq, or_self, or_false,
      false_or, if_false, if_true] <;>
    split_ifs <;>
    simp [round2_06, round2_075, round2_09, round2_07, round2_05, round2_04,
      round2_095]

theorem fuseRisk_tier_bounds (kw : Tier) (p : String) (c : ℚ) (u : String) :
    tierLe kw (fuseRisk kw p c u).1 ∧
      tierIdx (fuseRisk kw p c u).1 ≤ tierIdx kw + 1 := by
  cases kw <;>
    simp only [fuseRisk, reduceCtorEq, or_self, or_false, false_or,
      if_false, if_true] <;>
    split_ifs <;>
    simp [tierLe, tierIdx]

/-- Claim C2: for every message and emotion signal, the final tier and the
reported confidence of `detect_crisis_with_emotion` are exactly the entry of
the fixed decision table `fusionSpec` selected by the keyword tier and the
(defaulted) emotion fields. -/
theorem C2_emotion_fusion_table
    (analyzer : List Char → Option (List (List Char))) (msg : List Char)
    (e : EmotionData) :
    ((detect_crisis_with_emotion analyzer msg e).risk_level,
      (detect_crisis_with_emotion analyzer msg e).confidence) =
    fusionSpec (detect_crisis_enhanced analyzer msg)
      (e.primary_emotion.getD "neutral") (e.confidence.getD 0)
      (e.urgency.getD "low") := by
  simp only [detect_crisis_with_emotion]
  exact fuseRisk_fusionSpec (detect_crisis_enhanced analyzer msg) _ _ _

/-- Claim C9: fusion never downgrades the keyword tier: the final tier of
`detect_crisis_with_emotion` is at least the tier `detect_crisis_enhanced`
produced, for every emotion signal. -/
theorem C9_fusion_never_downgrades
    (analyzer : List Char → Option (List (List Char))) (msg : List Char)
    (e : EmotionData) :
    tierLe (detect_crisis_enhanced analyzer msg)
      ((detect_crisis_with_emotion analyzer msg e).risk_level) := by
  simp only [detect_crisis_with_emotion]
  exact (fuseRisk_tier_bounds (detect_crisis_enhanced analyzer msg) _ _ _).1

/-- Claim C4: fusion moves the tier by at most one severity step in either
direction: the index distance between the final tier of
`detect_crisis_with_emotion` and the keyword tier of
`detect_crisis_enhanced` is at most 1. -/
theorem C4_fusion_one_step
    (analyzer : List Char → Option (List (List Char))) (msg : List Char)
    (e : EmotionData) :
    tierIdx ((detect_crisis_with_emotion analyzer msg e).risk_level) ≤
      tierIdx (detect_crisis_enhanced analyzer msg) + 1 ∧
    tierIdx (detect_crisis_enhanced analyzer msg) ≤
      tierIdx ((detect_crisis_with_emotion analyzer msg e).risk_level) + 1 := by
  have hb := fuseRisk_tier_bounds (detect_crisis_enhanced analyzer msg)
    (e.primary_emotion.getD "neutral") (e.confidence.getD 0)
    (e.urgency.getD "low")
  have h1 := hb.1
  have h2 := hb.2
  unfold tierLe at h1
  simp only [detect_crisis_with_emotion]
  omega

theorem tierLe_refl (t : Tier) : tierLe t t := Nat.le_refl _

theorem tierLe_critical (t : Tier) : tierLe t .CRITICAL := by
  cases t <;> decide

theorem detect_level_pyLower (msg : List Char) :
    detect_crisis_level (pyLower msg) = detect_crisis_level msg := by
  unfold detect_crisis_level
  rw [pyLower_isEmpty, pyStrip_pyLower_length, pyLower_idem]

/-- Claim C3 (amended): the reconciled tier of `detect_crisis_enhanced` is
always at least the raw-pass tier; and it is also at least the
lemmatized-pass tier whenever the message has at least 3 stripped characters
and the raw pass did not return HIGH. (When the raw pass returns HIGH the
fast path skips the lemmatized pass entirely, which is the one gap in the
original claim; see the counterexample.) -/
theorem C3_dual_pass_monotone_amended
    (analyzer : List Char → Option (List (List Char))) (msg : List Char) :
    tierLe (detect_crisis_level msg) (detect_crisis_enhanced analyzer msg) ∧
    (3 ≤ (pyStrip msg).length → detect_crisis_level msg ≠ .HIGH →
      tierLe (detect_crisis_level (lemmatize_text analyzer msg))
        (detect_crisis_enhanced analyzer msg)) := by
  constructor
  · simp only [detect_crisis_enhanced]
    by_cases hg : msg.isEmpty ∨ (pyStrip msg).length < 3
    · rw [if_pos hg]
      have hs : detect_crisis_level msg = .SAFE := by
        apply detect_level_safe_of_short
        rcases hg with h1 | h1
        · exact Or.inl h1
        · exact Or.inr (by omega)
      rw [hs]
      exact tierLe_refl _
    · rw [if_neg hg]
      by_cases hf : detect_crisis_level msg = .CRITICAL ∨
          detect_crisis_level msg = .HIGH
      · rw [if_pos hf]
        exact tierLe_refl _
      · rw [if_neg hf]
        by_cases heq : lemmatize_text analyzer msg ≠ pyLower msg
        · rw [if_pos heq]
          by_cases hlt : tierIdx (detect_crisis_level msg) <
              tierIdx (detect_crisis_level (lemmatize_text analyzer msg))
          · rw [if_pos hlt]
            exact Nat.le_of_lt hlt
          · rw [if_neg hlt]
            exact tierLe_refl _
        · rw [if_neg heq]
          exact tierLe_refl _
  · intro h3 hH
    have hg : ¬(msg.isEmpty ∨ (pyStrip msg).length < 3) := by
      rintro (he | hl)
      · cases msg with
        | nil => exact absurd h3 (by decide)
        | cons a t => simp at he
      · omega
    simp only [detect_crisis_enhanced]
    rw [if_neg hg]
    by_cases hf : detect_crisis_level msg = .CRITICAL ∨
        detect_crisis_level msg = .HIGH
    · rw [if_pos hf]
      rcases hf with hc | hh
      · rw [hc]
        exact tierLe_critical _
      · exact absurd hh hH
    · rw [if_neg hf]
      by_cases heq : lemmatize_text analyzer msg ≠ pyLower msg
      · rw [if_pos heq]
        by_cases hlt : tierIdx (detect_crisis_level msg) <
            tierIdx (detect_crisis_level (lemmatize_text analyzer msg))
        · rw [if_pos hlt]
          exact tierLe_refl _
        · rw [if_neg hlt]
          unfold tierLe
          omega
      · rw [if_neg heq]
        have heq' : lemmatize_text analyzer msg = pyLower msg := not_not.mp heq
        rw [heq', detect_level_pyLower]
        exact tierLe_refl _

/-- Claim C3 counterexample: on `I hate myself and I am killing myself` the
raw pass returns HIGH, so the reconciler returns HIGH without running the
second pass, although the lemmatized pass alone returns CRITICAL: the
combined result is strictly less severe than one of the passes. -/
theorem C3_dual_pass_counterexample :
    detect_crisis_enhanced demoAnalyzer
        (s2c "I hate myself and I am killing myself") = .HIGH ∧
    detect_crisis_level (lemmatize_text demoAnalyzer
        (s2c "I hate myself and I am killing myself")) = .CRITICAL ∧
    ¬ tierLe
        (detect_crisis_level (lemmatize_text demoAnalyzer
          (s2c "I hate myself and I am killing myself")))
        (detect_crisis_enhanced demoAnalyzer
          (s2c "I hate myself and I am killing myself")) :=
  ⟨by decide, by decide, by decide⟩

theorem C3_dual_pass_monotone_amended_witness :
    tierLe (detect_crisis_level (s2c "we are all alone"))
      (detect_crisis_enhanced demoAnalyzer (s2c "we are all alone")) ∧
    3 ≤ (pyStrip (s2c "we are all alone")).length ∧
    detect_crisis_level (s2c "we are all alone") ≠ .HIGH ∧
    tierLe
      (detect_crisis_level (lemmatize_text demoAnalyzer (s2c "we are all alone")))
      (detect_crisis_enhanced demoAnalyzer (s2c "we are all alone")) :=
  ⟨(C3_dual_pass_monotone_amended demoAnalyzer _).1, by decide, by decide,
    (C3_dual_pass_monotone_amended demoAnalyzer _).2 (by decide) (by decide)⟩

/-- Claim C8: normalization failure is never fatal. If the analyzer fails on
a message, `lemmatize_text` returns the original text unchanged, and
`detect_crisis_enhanced` falls back to the raw-pass tier
`detect_crisis_level`; being a total function, the assessment always yields
a tier. -/
theorem C8_normalization_never_fatal
    (analyzer : List Char → Option (List (List Char))) (msg : List Char)
    (h : analyzer (pyLower msg) = none) :
    lemmatize_text analyzer msg = msg ∧
    detect_crisis_enhanced analyzer msg = detect_crisis_level msg := by
  have hlem : lemmatize_text analyzer msg = msg := by
    unfold lemmatize_text
    rw [h]
  refine ⟨hlem, ?_⟩
  simp only [detect_crisis_enhanced]
  by_cases hg : msg.isEmpty ∨ (pyStrip msg).length < 3
  · rw [if_pos hg]
    have hs : detect_crisis_level msg = .SAFE := by
      apply detect_level_safe_of_short
      rcases hg with h1 | h1
      · exact Or.inl h1
      · exact Or.inr (by omega)
    rw [hs]
  · rw [if_neg hg]
    by_cases hf : detect_crisis_level msg = .CRITICAL ∨
        detect_crisis_level msg = .HIGH
    · rw [if_pos hf]
    · rw [if_neg hf, hlem]
      by_cases heq : msg ≠ pyLower msg
      · rw [if_pos heq, if_neg (Nat.lt_irrefl _)]
      · rw [if_neg heq]

theorem C8_normalization_never_fatal_witness :
    failAnalyzer (pyLower (s2c "I want to kill myself")) = none ∧
    lemmatize_text failAnalyzer (s2c "I want to kill myself") =
      s2c "I want to kill myself" ∧
    detect_crisis_enhanced failAnalyzer (s2c "I want to kill myself") =
      detect_crisis_level (s2c "I want to kill myself") :=
  ⟨rfl, (C8_normalization_never_fatal failAnalyzer _ rfl).1,
    (C8_normalization_never_fatal failAnalyzer _ rfl).2⟩

/-- Claim C7: `get_crisis_response` returns no bundle for SAFE, and for
CRITICAL, HIGH and MEDIUM returns its fixed bundle, whose `escalate` flag is
true exactly for CRITICAL and HIGH and whose `immediate_action_required`
flag is true exactly for CRITICAL. -/
theorem C7_crisis_response_bundles :
    get_crisis_response .SAFE = none ∧
    ((get_crisis_response .CRITICAL).map fun b =>
      (b.escalate, b.immediate_action_required)) = some (true, true) ∧
    ((get_crisis_response .HIGH).map fun b =>
      (b.escalate, b.immediate_action_required)) = some (true, false) ∧
    ((get_crisis_response .MEDIUM).map fun b =>
      (b.escalate, b.immediate_action_required)) = some (false, false) :=
  ⟨rfl, rfl, rfl, rfl⟩

/-- Claim C10: the trigger extractor scans only the raw message, so a
message whose CRITICAL phrase appears only after lemmatization (here
`I am killing myself`, lemmatized to `i be kill myself`) is classified
CRITICAL by `detect_crisis_with_emotion` while its `triggers` list is
empty. -/
theorem C10_triggers_raw_only :
    (detect_crisis_with_emotion demoAnalyzer (s2c "I am killing myself")
      { primary_emotion := none, confidence := none, urgency := none
        : EmotionData }).risk_level = .CRITICAL ∧
    (detect_crisis_with_emotion demoAnalyzer (s2c "I am killing myself")
      { primary_emotion := none, confidence := none, urgency := none
        : EmotionData }).triggers = [] := by
  constructor
  · rfl
  · rfl
